import Mathlib

/-!
Shallow embedding of the webdriverio build/test pipeline orchestrator
(`src/automation/test-automation.js`, the enhanced build report generator,
and the two `executeCommand` helpers), together with proofs settling the
frozen claims about the step-execution and reporting engine.

Modelling conventions:
* JS numbers that hold counts are `Nat`; percentage metrics are `Rat`
  (coverage percentages and pass rates are compared with `<`, which agrees
  with IEEE comparison on the values in range).
* Wall-clock data (`Date.now()` durations, ISO timestamps) is elided: it is
  descriptive only and no claim mentions it.
* External effects (subprocess outcomes, file-system contents, environment
  variables) are passed in as an explicit environment record; the functions
  below reproduce the source's control flow over that environment.
* A JS `throw` that escapes a step is an `Option String` (the error message)
  threaded to the orchestrator's `catch` block, mirroring the source's
  try/catch structure.  `process.exit` terminates the process immediately,
  skipping `finally` blocks, and is modelled accordingly.
-/

/-- Step / report status strings used by the scripts. -/
inductive Status where
  | SUCCESS
  | WARNING
  | PARTIAL
  | FAILED
  | UNKNOWN
deriving DecidableEq, Repr

namespace TestAutomation

/-! ### Data model of `test-automation.js` -/

/-- Record `testReport.execution` (the `executionTime` timing field is elided). -/
structure Execution where
  totalTests : Nat
  passed : Nat
  failed : Nat
  skipped : Nat
deriving DecidableEq, Repr

/-- The four coverage percentage fields of `testReport.coverage`. -/
structure Coverage where
  statements : Rat
  branches : Rat
  functions : Rat
  lines : Rat
deriving DecidableEq, Repr

/-- Record `testReport.coverage.threshold`. -/
structure Thresholds where
  statements : Rat
  branches : Rat
  functions : Rat
  lines : Rat
deriving DecidableEq, Repr

/-- Record `testReport.quality`, set by the quality-assessment step. -/
structure Quality where
  passRate : Rat
  coverageStatus : String
  issues : List String
deriving DecidableEq, Repr

/-- One entry of `testReport.steps` (durations and detail payloads are
descriptive and elided). -/
structure TStep where
  step : String
  status : Status
deriving DecidableEq, Repr

/-- The report object built by `runComprehensiveTests`.  In the source the
threshold table is nested inside `coverage`; it is held in a sibling field
here, and is never modified (coverage replacement keeps the old table). -/
structure TestReport where
  status : Status
  execution : Execution
  coverage : Coverage
  threshold : Thresholds
  steps : List TStep
  errors : List String
  quality : Option Quality
  testFiles : Option Nat
deriving DecidableEq, Repr

/-- Initial `testReport` value. -/
def initReport : TestReport :=
  { status := .UNKNOWN
    execution := ⟨0, 0, 0, 0⟩
    coverage := ⟨0, 0, 0, 0⟩
    threshold := ⟨80, 80, 80, 80⟩
    steps := []
    errors := []
    quality := none
    testFiles := none }

/-! ### `parseTestResults`

The source scans each line of the captured output; on a line containing
`"passing"` or `"failing"` it applies the regexes `/(\d+)\s+passing/` and
`/(\d+)\s+failing/` and overwrites `passed` / `failed` with the captured
number; finally it sets `totalTests = passed + failed`. -/

/-- Characters matched by the JS regex class `\s` (the common ones; the
exotic Unicode spaces never occur in runner output). -/
def jsSpace (c : Char) : Bool :=
  c == ' ' || c == '\t' || c == '\n' || c == '\r' || c == '\x0b' || c == '\x0c'

/-- Decimal value of a digit run, as `parseInt` computes it. -/
def digitsToNat (ds : List Char) : Nat :=
  ds.foldl (fun acc c => 10 * acc + (c.toNat - '0'.toNat)) 0

/-- Does `cs` start with `w`? -/
def startsWithL : List Char → List Char → Bool
  | _, [] => true
  | [], _ :: _ => false
  | c :: cs, d :: ds => c == d && startsWithL cs ds

/-- Does `cs` contain `w` as a contiguous substring (JS `includes`)? -/
def hasSub : List Char → List Char → Bool
  | [], w => w.isEmpty
  | c :: cs, w => startsWithL (c :: cs) w || hasSub cs w

/-- Try to match `(\d+)\s+<word>` anchored at the start of `cs`: a maximal
nonempty digit run, then a nonempty run of `\s`, then the literal word.
(The regex engine's backtracking cannot shorten either greedy run, because
a digit is not `\s` and the words start with a letter.) -/
def matchFrom (cs : List Char) (word : List Char) : Option Nat :=
  let p1 := cs.span Char.isDigit
  if p1.1.isEmpty then none
  else
    let p2 := p1.2.span jsSpace
    if p2.1.isEmpty then none
    else if startsWithL p2.2 word then some (digitsToNat p1.1) else none

/-- Leftmost match of `(\d+)\s+<word>` in `cs`, returning the captured
number, as `String.prototype.match` finds it. -/
def findNum : List Char → List Char → Option Nat
  | [], _ => none
  | c :: cs, word =>
    match matchFrom (c :: cs) word with
    | some n => some n
    | none => findNum cs word

/-- Splitting as in `output.split` on the newline character. -/
def splitLines : List Char → List (List Char)
  | [] => [[]]
  | c :: cs =>
    let r := splitLines cs
    if c == '\n' then [] :: r
    else
      match r with
      | [] => [[c]]
      | l :: ls => (c :: l) :: ls

/-- One iteration of the `lines.forEach` body of `parseTestResults`. -/
def parseLine (e : Execution) (line : List Char) : Execution :=
  if hasSub line "passing".data || hasSub line "failing".data then
    let e1 := match findNum line "passing".data with
      | some n => { e with passed := n }
      | none => e
    match findNum line "failing".data with
      | some n => { e1 with failed := n }
      | none => e1
  else e

/-- Function `parseTestResults(output, testReport)` restricted to the `execution`
record it mutates. -/
def parseTestResults (output : String) (exec : Execution) : Execution :=
  let e := (splitLines output.data).foldl parseLine exec
  { e with totalTests := e.passed + e.failed }

/-- Holds (is `true`) when no line of `output` matches either summary regex: the
parser finds no `N passing` / `N failing` summary. -/
def noSummary (output : String) : Bool :=
  (splitLines output.data).all fun line =>
    (findNum line "passing".data).isNone &&
    (findNum line "failing".data).isNone

/-! ### Quality assessment (Step 4 of `runComprehensiveTests`)

The source iterates `Object.keys(testReport.coverage.threshold)` — always
`statements, branches, functions, lines`, in that insertion order — and
pushes one violation string per metric whose value is strictly below its
threshold; then it computes the pass rate and pushes one more string when
the rate is strictly below 90. -/

/-- The four configured coverage metrics. -/
inductive Metric where
  | statements
  | branches
  | functions
  | lines
deriving DecidableEq, Repr

/-- The JS key naming a metric. -/
def Metric.name : Metric → String
  | .statements => "statements"
  | .branches => "branches"
  | .functions => "functions"
  | .lines => "lines"

/-- Lookup `testReport.coverage[metric]`. -/
def Coverage.get (c : Coverage) : Metric → Rat
  | .statements => c.statements
  | .branches => c.branches
  | .functions => c.functions
  | .lines => c.lines

/-- Lookup `testReport.coverage.threshold[metric]`. -/
def Thresholds.get (t : Thresholds) : Metric → Rat
  | .statements => t.statements
  | .branches => t.branches
  | .functions => t.functions
  | .lines => t.lines

/-- Decimal rendering of a metric value, standing in for JS
number-to-string conversion (integral values print as integers, which is
the only case claims evaluate concretely). -/
def fmtNum (q : Rat) : String :=
  if q.den = 1 then toString q.num else toString q

/-- The string `"<metric> coverage <actual>% below threshold <threshold>%"`. -/
def covMsg (m : Metric) (v t : Rat) : String :=
  m.name ++ " coverage " ++ fmtNum v ++ "% below threshold " ++ fmtNum t ++ "%"

/-- Rendering `passRate.toFixed(1)` for a nonnegative rate. -/
def toFixed1 (q : Rat) : String :=
  let n := (q * 10 + 1 / 2).floor.toNat
  toString (n / 10) ++ "." ++ toString (n % 10)

/-- The pass-rate violation string pushed when `passRate < 90`. -/
def passMsg (pr : Rat) : String :=
  "Test pass rate " ++ toFixed1 pr ++ "% below 90%"

/-- The `passRate` computed at line 191: `totalTests > 0 ?
passed / totalTests * 100 : 0`. -/
def passRate (e : Execution) : Rat :=
  if e.totalTests > 0 then ((e.passed : Rat) / (e.totalTests : Rat)) * 100 else 0

/-- The coverage-threshold loop over `Object.keys`, in insertion order. -/
def coverageIssues (cov : Coverage) (thr : Thresholds) : List String :=
  (if cov.statements < thr.statements then
      [covMsg .statements cov.statements thr.statements] else []) ++
  (if cov.branches < thr.branches then
      [covMsg .branches cov.branches thr.branches] else []) ++
  (if cov.functions < thr.functions then
      [covMsg .functions cov.functions thr.functions] else []) ++
  (if cov.lines < thr.lines then
      [covMsg .lines cov.lines thr.lines] else [])

/-- The full `qualityIssues` list accumulated by Step 4. -/
def qualityIssues (cov : Coverage) (thr : Thresholds) (e : Execution) :
    List String :=
  coverageIssues cov thr ++
    (if passRate e < 90 then [passMsg (passRate e)] else [])

/-! ### The pipeline of `runComprehensiveTests`

The environment below carries the outcome of every external interaction
the function performs, in program order.  The body is the `try` block:
it returns the report together with `some message` when a `throw` escapes
to the outer `catch`. -/

/-- The error object `execSync` throws on failure: `error.status` is the
exit code (`none` when the process was killed or could not start),
`error.stdout` the captured output when piping was in effect. -/
structure ExecErr where
  status : Option Int
  stdout : Option String
  message : String
deriving DecidableEq, Repr

/-- Outcome of Step 3 (`nyc report` + reading `coverage-summary.json`):
the whole `try` body either throws, or succeeds with no summary file, or
succeeds and replaces the coverage percentages. -/
inductive CovOutcome where
  | err
  | noSummaryFile
  | summary (c : Coverage)
deriving DecidableEq, Repr

/-- External world of one `runComprehensiveTests` run. -/
structure TEnv where
  /-- Result of `fs.existsSync` on the WebdriverIO configuration file. -/
  wdioConfExists : Bool
  /-- Result of listing the spec directory filtered to js files: the count of
  test files, or the message of the error it throws. -/
  specsList : Except String Nat
  /-- Result of `execSync` on the test command: captured stdout, or the thrown error. -/
  testRun : Except ExecErr String
  /-- Step 3 outcome. -/
  covRun : CovOutcome
  /-- whether `process.env.CI` is set (truthy). -/
  ciSet : Bool
deriving Repr

/-- Sequence a step outcome into the next step, short-circuiting a thrown
error to the outer `catch`. -/
def andThen (x : TestReport × Option String)
    (f : TestReport → TestReport × Option String) :
    TestReport × Option String :=
  match x with
  | (r, some m) => (r, some m)
  | (r, none) => f r

/-- Step 1: validate environment (throws when `wdio.conf.js` is missing or
the spec-directory listing throws). -/
def step1 (env : TEnv) (r : TestReport) : TestReport × Option String :=
  if ¬ env.wdioConfExists then
    (r, some "WebdriverIO configuration not found")
  else
    match env.specsList with
    | .error m => (r, some m)
    | .ok nFiles =>
      ({ r with testFiles := some nFiles,
                steps := r.steps ++ [⟨"Environment validation", .SUCCESS⟩] },
       none)

/-- Step 2: run the tests.  On success the output is parsed and a SUCCESS
step recorded.  On an `execSync` error, any captured stdout is still
parsed; when `error.status === 1` and the parsed total is positive the
step is recorded as PARTIAL and execution continues, otherwise the error
is rethrown. -/
def step2 (env : TEnv) (r : TestReport) : TestReport × Option String :=
  match env.testRun with
  | .ok out =>
    let r := { r with execution := parseTestResults out r.execution }
    ({ r with steps := r.steps ++ [⟨"Test execution", .SUCCESS⟩] }, none)
  | .error e =>
    let r := match e.stdout with
      | some s => { r with execution := parseTestResults s r.execution }
      | none => r
    if e.status = some 1 ∧ r.execution.totalTests > 0 then
      ({ r with steps := r.steps ++ [⟨"Test execution", .PARTIAL⟩] }, none)
    else
      (r, some e.message)

/-- Step 3: coverage report generation — tolerant, its own `catch` turns
any failure into a WARNING step. -/
def step3 (env : TEnv) (r : TestReport) : TestReport × Option String :=
  match env.covRun with
  | .err =>
    ({ r with steps := r.steps ++ [⟨"Coverage report generation", .WARNING⟩] },
     none)
  | .noSummaryFile =>
    ({ r with steps := r.steps ++ [⟨"Coverage report generation", .SUCCESS⟩] },
     none)
  | .summary c =>
    ({ r with coverage := c,
              steps := r.steps ++ [⟨"Coverage report generation", .SUCCESS⟩] },
     none)

/-- Step 4: quality assessment (pure; sets `quality` and the final
non-abort status). -/
def step4 (r : TestReport) : TestReport × Option String :=
  let issues := qualityIssues r.coverage r.threshold r.execution
  let pr := passRate r.execution
  let q : Quality := ⟨pr, if issues.isEmpty then "PASSED" else "FAILED", issues⟩
  let r := { r with quality := some q }
  if issues.isEmpty then
    ({ r with status := .SUCCESS }, none)
  else
    ({ r with status := .PARTIAL }, none)

/-- The `try` block of `runComprehensiveTests`. -/
def runBody (env : TEnv) : TestReport × Option String :=
  andThen (step1 env initReport) fun r =>
  andThen (step2 env r) fun r =>
  andThen (step3 env r) step4

/-- Observable outcome of a whole run: the final report value, how many
JSON / HTML report documents the `finally` block wrote, and the argument
of `process.exit` when it was invoked. -/
structure RunOutcome where
  report : TestReport
  jsonReports : Nat
  htmlReports : Nat
  exitCode : Option Nat
deriving DecidableEq, Repr

/-- Function `runComprehensiveTests`: on a thrown error the `catch` block marks the
report FAILED, records the message, and — when `CI` is unset — calls
`process.exit(1)`, which terminates the process at once so that the
`finally` block (report generation) never runs. -/
def runComprehensiveTests (env : TEnv) : RunOutcome :=
  match runBody env with
  | (r, none) => ⟨r, 1, 1, none⟩
  | (r, some m) =>
    let r := { r with status := .FAILED, errors := r.errors ++ [m] }
    if ¬ env.ciSet then ⟨r, 0, 0, some 1⟩
    else ⟨r, 1, 1, none⟩

/-- The execution counts visible to the step-2 `catch` handler: the
captured stdout (when present) parsed against the still-zero initial
counts. -/
def parsedExec (e : ExecErr) : Execution :=
  match e.stdout with
  | some s => parseTestResults s ⟨0, 0, 0, 0⟩
  | none => ⟨0, 0, 0, 0⟩

end TestAutomation

namespace EnhancedBuild

/-! ### `generateBuildReport` (enhanced `build-automation.js`)

Environment validation, dependency installation, and artifact creation
rethrow their errors (fatal); security audit and lint swallow theirs
(tolerant, recorded as WARNING).  The `catch` block marks the report
FAILED and calls `process.exit(1)`, so here, too, the `finally` block is
skipped on the abort path. -/

/-- One entry of `buildReport.steps` (timing and detail payloads elided). -/
structure BStep where
  step : String
  status : Status
deriving DecidableEq, Repr

/-- Record `buildReport.dependencies` — production / development / total counts. -/
structure DepInfo where
  production : Nat
  development : Nat
  total : Nat
deriving DecidableEq, Repr

/-- The report object built by `generateBuildReport` (identifying
metadata and timing elided). -/
structure BReport where
  status : Status
  steps : List BStep
  artifacts : List String
  errors : List String
  dependencies : Option DepInfo
  totalVulnerabilities : Option Nat
  environmentInfo : Option (String × String)
deriving DecidableEq, Repr

/-- External world of one `generateBuildReport` run. -/
structure BEnv where
  /-- Results of `fs.existsSync` on the report and dist directories. -/
  reportDirExists : Bool
  distDirExists : Bool
  /-- Versions reported by node and npm, or the thrown error message. -/
  envCheck : Except String (String × String)
  /-- reading and parsing `package.json`, or the thrown error message. -/
  pkgRead : Except String DepInfo
  /-- Output of the npm ci subprocess, or the thrown error message. -/
  npmCi : Except String String
  /-- Parsed total vulnerability count of the npm audit; `none` when the
  audit command or the JSON parse threw. -/
  audit : Option Nat
  /-- Whether the lint subprocess exited successfully. -/
  lintOk : Bool
  /-- artifact copying: the artifact names pushed before any failure, and
  the thrown error message if a copy failed. -/
  artifactsPushed : List String
  artifactErr : Option String

/-- Appending to the step list as in `buildReport.steps.push`. -/
def pushStep (r : BReport) (name : String) (st : Status) : BReport :=
  { r with steps := r.steps ++ [BStep.mk name st] }

/-- Appending to the error list as in `buildReport.errors.push`. -/
def pushErr (r : BReport) (msg : String) : BReport :=
  { r with errors := r.errors ++ [msg] }

/-- The `try` block of `generateBuildReport`, returning the report and
`some message` when a `throw` escapes to the outer `catch`. -/
def buildBody (env : BEnv) (r : BReport) : BReport × Option String :=
  -- directory creation (a step entry only when the directory was created)
  let r := if ¬ env.reportDirExists then
    pushStep r "Create build-reports directory" .SUCCESS else r
  let r := if ¬ env.distDirExists then
    pushStep r "Create dist directory" .SUCCESS else r
  -- Step 1: environment validation (fatal)
  match env.envCheck with
  | .error m =>
    (pushErr r ("Environment validation failed: " ++ m), some m)
  | .ok vers =>
  let r := pushStep { r with environmentInfo := some vers }
    "Environment validation" .SUCCESS
  -- Step 2: dependency installation (fatal)
  match env.pkgRead with
  | .error m =>
    (pushErr r ("Dependency installation failed: " ++ m), some m)
  | .ok deps =>
  let r := { r with dependencies := some deps }
  match env.npmCi with
  | .error m =>
    (pushErr r ("Dependency installation failed: " ++ m), some m)
  | .ok _ =>
  let r := pushStep r "Dependency installation" .SUCCESS
  -- Step 3: security audit (tolerant)
  let r := match env.audit with
    | some v =>
      pushStep { r with totalVulnerabilities := some v }
        "Security audit" (if v = 0 then .SUCCESS else .WARNING)
    | none => pushStep r "Security audit" .WARNING
  -- Step 4: code quality checks (tolerant)
  let r := if env.lintOk then
    pushStep r "Code quality check" .SUCCESS
    else pushStep r "Code quality check" .WARNING
  -- Step 5: build artifacts (fatal)
  let r := { r with artifacts := r.artifacts ++ env.artifactsPushed }
  match env.artifactErr with
  | some m =>
    (pushErr r ("Artifact creation failed: " ++ m), some m)
  | none =>
  let r := pushStep r "Build artifacts creation" .SUCCESS
  ({ r with status := .SUCCESS }, none)

/-- Initial `buildReport` value. -/
def initBReport : BReport :=
  { status := .UNKNOWN, steps := [], artifacts := [], errors := [],
    dependencies := none, totalVulnerabilities := none,
    environmentInfo := none }

/-- Function `generateBuildReport`: the final report value, and whether the
`finally` block (which writes the JSON and HTML documents) ran — on the
abort path `process.exit(1)` in the `catch` terminates the process before
`finally`. -/
def generateBuildReport (env : BEnv) : BReport × Bool :=
  match buildBody env initBReport with
  | (r, none) => (r, true)
  | (r, some m) =>
    ({ r with status := .FAILED, errors := r.errors ++ [m] }, false)

end EnhancedBuild

namespace CommandRunner

/-! ### The two `executeCommand` helpers

`src/unnamed/part_000` wraps `execSync` in try/catch and returns
`{success, output}` or `{success: false, error}`; the simplified
`src/automation/build-automation.js` wraps callback-style `exec` in a
promise that always resolves (`{error: true, message}` on failure).
In both, a non-zero exit of the subprocess surfaces as a thrown /
callback error carrying a message — never as an exception escaping the
helper. -/

/-- What the underlying subprocess did: exit zero with output, or fail
(non-zero exit, spawn failure, or timeout) with an error message. -/
inductive ExecOutcome where
  | ok (output : String)
  | err (message : String)
deriving DecidableEq, Repr

/-- Result value of the `execSync`-based `executeCommand` (part_000). -/
structure CmdResult where
  success : Bool
  output : Option String
  error : Option String
deriving DecidableEq, Repr

/-- The execSync-based `executeCommand(command, description)`: the try/catch
converts any raised error into a result value. -/
def executeCommand (o : ExecOutcome) : CmdResult :=
  match o with
  | .ok out => { success := true, output := some out, error := none }
  | .err m => { success := false, output := none, error := some m }

/-- Resolution value of the promise-based `executeCommand`
(simplified `build-automation.js`). -/
structure PCmdResult where
  error : Bool
  message : Option String
  stdout : Option String
deriving DecidableEq, Repr

/-- The promise-based `executeCommand(command, description)` of the simplified build
script: the `exec` callback resolves (never rejects) in both branches. -/
def executeCommandP (o : ExecOutcome) : PCmdResult :=
  match o with
  | .ok out => { error := false, message := none, stdout := some out }
  | .err m => { error := true, message := some m, stdout := none }

end CommandRunner

namespace TestAutomation

/-! ### Parser lemmas -/

/-- A line on which neither summary regex matches leaves the execution
record untouched. -/
theorem parseLine_eq_of_none {line : List Char} (e : Execution)
    (hp : findNum line "passing".data = none)
    (hf : findNum line "failing".data = none) :
    parseLine e line = e := by
  unfold parseLine
  rw [hp, hf]
  split <;> rfl

/-- The function `parseLine` never touches the `skipped` count. -/
theorem parseLine_skipped (e : Execution) (line : List Char) :
    (parseLine e line).skipped = e.skipped := by
  unfold parseLine
  split
  · cases findNum line "passing".data <;> cases findNum line "failing".data <;> rfl
  · rfl

/-- Folding `parseLine` over summary-free lines is the identity. -/
theorem foldl_parseLine_eq_of_none (ls : List (List Char)) (e : Execution)
    (h : ∀ line ∈ ls, findNum line "passing".data = none ∧
      findNum line "failing".data = none) :
    ls.foldl parseLine e = e := by
  induction ls generalizing e with
  | nil => rfl
  | cons l ls ih =>
    have hl := h l (List.mem_cons_self _ _)
    rw [List.foldl_cons, parseLine_eq_of_none e hl.1 hl.2]
    exact ih e fun line hm => h line (List.mem_cons_of_mem _ hm)

/-- Folding `parseLine` preserves the `skipped` count. -/
theorem foldl_parseLine_skipped (ls : List (List Char)) (e : Execution) :
    (ls.foldl parseLine e).skipped = e.skipped := by
  induction ls generalizing e with
  | nil => rfl
  | cons l ls ih => rw [List.foldl_cons, ih, parseLine_skipped]

end TestAutomation

/-- C7.  The test-output parser is total — it is a plain function on
arbitrary strings, defined by structural recursion, and raises no fault —
and whenever no `N passing` / `N failing` summary pattern matches on any
line of the input, it leaves `passed = 0`, `failed = 0`, `totalTests = 0`
instead of failing the step. -/
theorem claim_C7_parser_total_fallback (output : String)
    (h : TestAutomation.noSummary output = true) :
    TestAutomation.parseTestResults output ⟨0, 0, 0, 0⟩ = ⟨0, 0, 0, 0⟩ := by
  unfold TestAutomation.parseTestResults
  have h' : ∀ line ∈ TestAutomation.splitLines output.data,
      TestAutomation.findNum line "passing".data = none ∧
      TestAutomation.findNum line "failing".data = none := by
    intro line hm
    have := (List.all_eq_true.mp h) line hm
    constructor
    · exact Option.isNone_iff_eq_none.mp (Bool.and_elim_left this)
    · exact Option.isNone_iff_eq_none.mp (Bool.and_elim_right this)
  rw [TestAutomation.foldl_parseLine_eq_of_none _ _ h']
  rfl

/-- Witness for C7 at a concrete malformed input. -/
theorem claim_C7_witness :
    TestAutomation.parseTestResults "npm ERR! could not spawn browser\nstack trace line"
      ⟨0, 0, 0, 0⟩ = ⟨0, 0, 0, 0⟩ :=
  claim_C7_parser_total_fallback _ (by decide)

namespace TestAutomation

/-! ### Quality-gate lemmas -/

/-- Violation strings for distinct metrics are distinct (they open with
the metric's name, and the four names differ in their first character). -/
theorem covMsg_ne (m m' : Metric) (v t v' t' : Rat) (h : m ≠ m') :
    covMsg m v t ≠ covMsg m' v' t' := by
  cases m <;> cases m' <;> (try simp at h) <;>
    (intro he; have h2 := congrArg String.data he;
     simp [covMsg, Metric.name, String.data_append, String.data] at h2)

/-- A coverage violation string is never the pass-rate violation string. -/
theorem covMsg_ne_passMsg (m : Metric) (v t pr : Rat) :
    covMsg m v t ≠ passMsg pr := by
  cases m <;>
    (intro he; have h2 := congrArg String.data he;
     simp [covMsg, passMsg, Metric.name, String.data_append, String.data] at h2)

/-- Occurrences of metric `m`'s violation string in another metric's
conditional segment: none. -/
theorem count_seg_other (m m' : Metric) (h : m ≠ m') (v t v' t' : Rat)
    (c : Prop) [Decidable c] :
    (if c then [covMsg m' v' t'] else []).count (covMsg m v t) = 0 := by
  split
  · simp [List.count_singleton', covMsg_ne m' m v' t' v t (Ne.symm h)]
  · rfl

/-- Occurrences of a coverage violation string in the pass-rate segment:
none. -/
theorem count_seg_pass (m : Metric) (v t pr : Rat) (c : Prop) [Decidable c] :
    (if c then [passMsg pr] else []).count (covMsg m v t) = 0 := by
  split
  · simp [List.count_singleton', (covMsg_ne_passMsg m v t pr).symm]
  · rfl

/-- Occurrences of metric `m`'s violation string in its own segment. -/
theorem count_seg_self (m : Metric) (v t : Rat) (c : Prop) [Decidable c] :
    (if c then [covMsg m v t] else []).count (covMsg m v t) =
      if c then 1 else 0 := by
  split <;> simp

/-- The quality-issue list contains metric `m`'s violation string exactly
when the metric's value is below its threshold, and then exactly once. -/
theorem count_qualityIssues (cov : Coverage) (thr : Thresholds)
    (e : Execution) (m : Metric) :
    (qualityIssues cov thr e).count (covMsg m (cov.get m) (thr.get m)) =
      if cov.get m < thr.get m then 1 else 0 := by
  cases m with
  | statements =>
    simp [qualityIssues, coverageIssues, Coverage.get, Thresholds.get,
      List.count_append, count_seg_self, count_seg_pass,
      count_seg_other .statements .branches (by decide),
      count_seg_other .statements .functions (by decide),
      count_seg_other .statements .lines (by decide)]
  | branches =>
    simp [qualityIssues, coverageIssues, Coverage.get, Thresholds.get,
      List.count_append, count_seg_self, count_seg_pass,
      count_seg_other .branches .statements (by decide),
      count_seg_other .branches .functions (by decide),
      count_seg_other .branches .lines (by decide)]
  | functions =>
    simp [qualityIssues, coverageIssues, Coverage.get, Thresholds.get,
      List.count_append, count_seg_self, count_seg_pass,
      count_seg_other .functions .statements (by decide),
      count_seg_other .functions .branches (by decide),
      count_seg_other .functions .lines (by decide)]
  | lines =>
    simp [qualityIssues, coverageIssues, Coverage.get, Thresholds.get,
      List.count_append, count_seg_self, count_seg_pass,
      count_seg_other .lines .statements (by decide),
      count_seg_other .lines .branches (by decide),
      count_seg_other .lines .functions (by decide)]

end TestAutomation

/-- C5.  For every configured coverage metric: value at or above its
threshold produces no violation string for that metric; value strictly
below produces exactly one, of the form
`"<metric> coverage <actual>% below threshold <threshold>%"`. -/
theorem claim_C5_gate_monotonicity (cov : TestAutomation.Coverage)
    (thr : TestAutomation.Thresholds) (e : TestAutomation.Execution)
    (m : TestAutomation.Metric) :
    (thr.get m ≤ cov.get m →
      (TestAutomation.qualityIssues cov thr e).count
        (TestAutomation.covMsg m (cov.get m) (thr.get m)) = 0) ∧
    (cov.get m < thr.get m →
      (TestAutomation.qualityIssues cov thr e).count
        (TestAutomation.covMsg m (cov.get m) (thr.get m)) = 1) := by
  rw [TestAutomation.count_qualityIssues]
  constructor
  · intro h
    rw [if_neg (not_lt.mpr h)]
  · intro h
    rw [if_pos h]

/-- Witness for C5: statements at 85 ≥ 80 yields no statements violation;
branches at 72 < 80 yields exactly one branches violation. -/
theorem claim_C5_witness :
    ((80 : Rat) ≤ 85 →
      (TestAutomation.qualityIssues ⟨85, 72, 90, 90⟩ ⟨80, 80, 80, 80⟩
        ⟨10, 10, 0, 0⟩).count
        (TestAutomation.covMsg .statements 85 80) = 0) ∧
    ((72 : Rat) < 80 →
      (TestAutomation.qualityIssues ⟨85, 72, 90, 90⟩ ⟨80, 80, 80, 80⟩
        ⟨10, 10, 0, 0⟩).count
        (TestAutomation.covMsg .branches 72 80) = 1) :=
  ⟨(claim_C5_gate_monotonicity ⟨85, 72, 90, 90⟩ ⟨80, 80, 80, 80⟩
      ⟨10, 10, 0, 0⟩ .statements).1,
   (claim_C5_gate_monotonicity ⟨85, 72, 90, 90⟩ ⟨80, 80, 80, 80⟩
      ⟨10, 10, 0, 0⟩ .branches).2⟩

namespace TestAutomation

/-- The pass-rate violation string never sits in a coverage segment. -/
theorem passMsg_notin_seg (m : Metric) (v t pr : Rat) (c : Prop)
    [Decidable c] : passMsg pr ∉ (if c then [covMsg m v t] else []) := by
  split
  · simp only [List.mem_singleton]
    exact Ne.symm (covMsg_ne_passMsg m v t pr)
  · simp

/-- The pass-rate violation string never appears among the coverage
violations. -/
theorem passMsg_notin_coverageIssues (cov : Coverage) (thr : Thresholds)
    (pr : Rat) : passMsg pr ∉ coverageIssues cov thr := by
  intro h
  unfold coverageIssues at h
  rcases List.mem_append.mp h with h | h
  · rcases List.mem_append.mp h with h | h
    · rcases List.mem_append.mp h with h | h
      · exact passMsg_notin_seg _ _ _ _ _ h
      · exact passMsg_notin_seg _ _ _ _ _ h
    · exact passMsg_notin_seg _ _ _ _ _ h
  · exact passMsg_notin_seg _ _ _ _ _ h

end TestAutomation

/-- C6.  Under the parser invariant (`totalTests = 0` forces
`passed = 0`), the computed pass rate equals
`passed / max(total, 1) * 100`, and the gate flags a pass-rate violation
exactly when that rate is strictly below the 90% default threshold. -/
theorem claim_C6_pass_rate (cov : TestAutomation.Coverage)
    (thr : TestAutomation.Thresholds) (e : TestAutomation.Execution)
    (h : e.totalTests = 0 → e.passed = 0) :
    TestAutomation.passRate e =
      (e.passed : Rat) / ((max e.totalTests 1 : Nat) : Rat) * 100 ∧
    (TestAutomation.passMsg (TestAutomation.passRate e) ∈
        TestAutomation.qualityIssues cov thr e ↔
      TestAutomation.passRate e < 90) := by
  constructor
  · unfold TestAutomation.passRate
    by_cases ht : e.totalTests > 0
    · rw [if_pos ht, Nat.max_eq_left ht]
    · have ht0 : e.totalTests = 0 := by omega
      rw [if_neg ht, ht0, h ht0]
      norm_num
  · unfold TestAutomation.qualityIssues
    constructor
    · intro hm
      rcases List.mem_append.mp hm with hm | hm
      · exact absurd hm (TestAutomation.passMsg_notin_coverageIssues cov thr _)
      · by_cases hlt : TestAutomation.passRate e < 90
        · exact hlt
        · rw [if_neg hlt] at hm
          simp at hm
    · intro hlt
      exact List.mem_append.mpr (Or.inr (by rw [if_pos hlt]; simp))

/-- Witness for C6 at `passed = 9`, `failed = 1`, `total = 10`. -/
theorem claim_C6_witness :
    TestAutomation.passRate ⟨10, 9, 1, 0⟩ =
      (9 : Rat) / ((max 10 1 : Nat) : Rat) * 100 ∧
    (TestAutomation.passMsg (TestAutomation.passRate ⟨10, 9, 1, 0⟩) ∈
        TestAutomation.qualityIssues ⟨85, 72, 90, 90⟩ ⟨80, 80, 80, 80⟩
          ⟨10, 9, 1, 0⟩ ↔
      TestAutomation.passRate ⟨10, 9, 1, 0⟩ < 90) :=
  claim_C6_pass_rate ⟨85, 72, 90, 90⟩ ⟨80, 80, 80, 80⟩ ⟨10, 9, 1, 0⟩
    (by decide)

namespace TestAutomation

/-! ### Pipeline lemmas -/

/-- Step 4 never throws. -/
theorem step4_snd (r : TestReport) : (step4 r).2 = none := by
  by_cases h : (qualityIssues r.coverage r.threshold r.execution).isEmpty <;>
    simp [step4, h]

/-- Step 4 sets the non-abort status from the quality issues alone. -/
theorem step4_status (r : TestReport) : (step4 r).1.status =
    if (qualityIssues r.coverage r.threshold r.execution).isEmpty
    then Status.SUCCESS else Status.PARTIAL := by
  by_cases h : (qualityIssues r.coverage r.threshold r.execution).isEmpty <;>
    simp [step4, h]

/-- Step 4 records the issue list in `quality`. -/
theorem step4_quality (r : TestReport) : (step4 r).1.quality =
    some ⟨passRate r.execution,
      if (qualityIssues r.coverage r.threshold r.execution).isEmpty
      then "PASSED" else "FAILED",
      qualityIssues r.coverage r.threshold r.execution⟩ := by
  by_cases h : (qualityIssues r.coverage r.threshold r.execution).isEmpty <;>
    simp [step4, h]

/-- Step 4 leaves steps, metrics and counts unchanged. -/
theorem step4_fields (r : TestReport) : (step4 r).1.steps = r.steps ∧
    (step4 r).1.coverage = r.coverage ∧ (step4 r).1.threshold = r.threshold ∧
    (step4 r).1.execution = r.execution := by
  by_cases h : (qualityIssues r.coverage r.threshold r.execution).isEmpty <;>
    simp [step4, h]

/-- On a clean body, the `finally` block writes both documents and the
process is not exited. -/
theorem run_eq_of_none (env : TEnv) (r : TestReport)
    (h : runBody env = (r, none)) :
    runComprehensiveTests env = ⟨r, 1, 1, none⟩ := by
  unfold runComprehensiveTests
  rw [h]

/-- On a thrown error, the `catch` block marks the report FAILED; outside
CI it exits before the `finally` block. -/
theorem run_eq_of_some (env : TEnv) (r : TestReport) (m : String)
    (h : runBody env = (r, some m)) :
    runComprehensiveTests env =
      if ¬ env.ciSet then
        ⟨{ r with status := .FAILED, errors := r.errors ++ [m] }, 0, 0, some 1⟩
      else
        ⟨{ r with status := .FAILED, errors := r.errors ++ [m] }, 1, 1, none⟩ := by
  unfold runComprehensiveTests
  rw [h]

/-- Step 1 either succeeds or throws. -/
theorem step1_shape (env : TEnv) (r : TestReport) :
    (∃ r1, step1 env r = (r1, none)) ∨ (∃ r1 m, step1 env r = (r1, some m)) := by
  unfold step1
  split
  · exact Or.inr ⟨_, _, rfl⟩
  · rcases env.specsList with m | n
    · exact Or.inr ⟨_, _, rfl⟩
    · exact Or.inl ⟨_, rfl⟩

/-- Step 2 either continues or rethrows. -/
theorem step2_shape (env : TEnv) (r : TestReport) :
    (∃ r2, step2 env r = (r2, none)) ∨ (∃ r2 m, step2 env r = (r2, some m)) := by
  unfold step2
  rcases env.testRun with e | out
  · rcases e.stdout with _ | s <;> dsimp only <;> split
    · exact Or.inl ⟨_, rfl⟩
    · exact Or.inr ⟨_, _, rfl⟩
    · exact Or.inl ⟨_, rfl⟩
    · exact Or.inr ⟨_, _, rfl⟩
  · exact Or.inl ⟨_, rfl⟩

/-- Step 3 never throws (its own catch swallows the failure). -/
theorem step3_snd (env : TEnv) (r : TestReport) : (step3 env r).2 = none := by
  unfold step3
  rcases env.covRun <;> rfl

/-- A run either executes the quality gate (step 4) on the report built
by steps 1–3, or aborts with an error message. -/
theorem runBody_shape (env : TEnv) :
    (∃ r3, runBody env = step4 r3) ∨ (∃ r m, runBody env = (r, some m)) := by
  unfold runBody
  rcases step1_shape env initReport with ⟨r1, h1⟩ | ⟨r1, m, h1⟩
  · rw [h1]
    simp only [andThen]
    rcases step2_shape env r1 with ⟨r2, h2⟩ | ⟨r2, m, h2⟩
    · rw [h2]
      simp only [andThen]
      have h3 : step3 env r2 = ((step3 env r2).1, none) := by
        rw [← step3_snd env r2]
      rw [h3]
      simp only [andThen]
      exact Or.inl ⟨_, rfl⟩
    · rw [h2]
      simp only [andThen]
      exact Or.inr ⟨_, _, rfl⟩
  · rw [h1]
    simp only [andThen]
    exact Or.inr ⟨_, _, rfl⟩

/-- Spelled-out field access: the non-abort run's report. -/
theorem run_report_of_none (env : TEnv) (r : TestReport)
    (h : runBody env = (r, none)) :
    (runComprehensiveTests env).report = r := by
  rw [run_eq_of_none env r h]

/-- On the abort path the finalized report carries status FAILED and the
thrown message, whatever the CI flag. -/
theorem run_report_of_some (env : TEnv) (r : TestReport) (m : String)
    (h : runBody env = (r, some m)) :
    (runComprehensiveTests env).report =
      { r with status := .FAILED, errors := r.errors ++ [m] } := by
  rw [run_eq_of_some env r m h]
  split <;> rfl

/-- No step recorded by step 1 carries status FAILED. -/
theorem step1_steps_P (env : TEnv) (r r1 : TestReport) (o : Option String)
    (heq : step1 env r = (r1, o))
    (h : ∀ s ∈ r.steps, s.status ≠ Status.FAILED) :
    ∀ s ∈ r1.steps, s.status ≠ Status.FAILED := by
  obtain ⟨wc, sl, tr, cv, ci⟩ := env
  unfold step1 at heq
  split at heq
  · cases heq
    exact h
  · rcases sl with m | n
    · cases heq
      exact h
    · cases heq
      intro s hs
      rcases List.mem_append.mp hs with hs | hs
      · exact h s hs
      · rw [List.mem_singleton] at hs
        subst hs
        decide

/-- No step recorded by step 2 carries status FAILED. -/
theorem step2_steps_P (env : TEnv) (r r2 : TestReport) (o : Option String)
    (heq : step2 env r = (r2, o))
    (h : ∀ s ∈ r.steps, s.status ≠ Status.FAILED) :
    ∀ s ∈ r2.steps, s.status ≠ Status.FAILED := by
  obtain ⟨wc, sl, tr, cv, ci⟩ := env
  unfold step2 at heq
  rcases tr with e | out
  · obtain ⟨est, estd, emsg⟩ := e
    rcases estd with _ | st <;> dsimp only at heq <;> split at heq
    · cases heq
      intro s hs
      rcases List.mem_append.mp hs with hs | hs
      · exact h s hs
      · rw [List.mem_singleton] at hs
        subst hs
        decide
    · cases heq
      exact h
    · cases heq
      intro s hs
      rcases List.mem_append.mp hs with hs | hs
      · exact h s hs
      · rw [List.mem_singleton] at hs
        subst hs
        decide
    · cases heq
      exact h
  · cases heq
    intro s hs
    rcases List.mem_append.mp hs with hs | hs
    · exact h s hs
    · rw [List.mem_singleton] at hs
      subst hs
      decide

/-- No step recorded by step 3 carries status FAILED. -/
theorem step3_steps_P (env : TEnv) (r r3 : TestReport) (o : Option String)
    (heq : step3 env r = (r3, o))
    (h : ∀ s ∈ r.steps, s.status ≠ Status.FAILED) :
    ∀ s ∈ r3.steps, s.status ≠ Status.FAILED := by
  obtain ⟨wc, sl, tr, cv, ci⟩ := env
  unfold step3 at heq
  rcases cv with _ | _ | c <;> cases heq <;>
    (intro s hs
     rcases List.mem_append.mp hs with hs | hs
     · exact h s hs
     · rw [List.mem_singleton] at hs
       subst hs
       decide)

/-- Membership in the step list survives step 3. -/
theorem step3_steps_mem (env : TEnv) (r : TestReport) (s : TStep)
    (h : s ∈ r.steps) : s ∈ (step3 env r).1.steps := by
  unfold step3
  rcases env.covRun with _ | _ | c <;>
    exact List.mem_append.mpr (Or.inl h)

/-- The body never records a FAILED step on any path. -/
theorem runBody_steps_P (env : TEnv) :
    ∀ s ∈ (runBody env).1.steps, s.status ≠ Status.FAILED := by
  unfold runBody
  rcases h1 : step1 env initReport with ⟨r1, o1⟩
  have hp1 : ∀ s ∈ r1.steps, s.status ≠ Status.FAILED :=
    step1_steps_P env initReport r1 o1 h1 (by intro s hs; simp [initReport] at hs)
  rcases o1 with _ | m1
  · simp only [andThen]
    rcases h2 : step2 env r1 with ⟨r2, o2⟩
    have hp2 : ∀ s ∈ r2.steps, s.status ≠ Status.FAILED :=
      step2_steps_P env r1 r2 o2 h2 hp1
    rcases o2 with _ | m2
    · simp only [andThen]
      rcases h3 : step3 env r2 with ⟨r3, o3⟩
      have hp3 : ∀ s ∈ r3.steps, s.status ≠ Status.FAILED :=
        step3_steps_P env r2 r3 o3 h3 hp2
      rcases o3 with _ | m3
      · simp only [andThen]
        rw [(step4_fields r3).1]
        exact hp3
      · simp only [andThen]
        exact hp3
    · simp only [andThen]
      exact hp2
  · simp only [andThen]
    exact hp1

end TestAutomation

/-- C1 as stated is false: with `CI` unset, an exception raised mid-step
(here: missing `wdio.conf.js`) reaches the catch block, which calls
`process.exit(1)`; the `finally`-based report generation never runs, so
zero documents are written before the process exits. -/
theorem claim_C1_counterexample :
    (TestAutomation.runComprehensiveTests
      ⟨false, .ok 0, .ok "", .err, false⟩).jsonReports = 0 ∧
    (TestAutomation.runComprehensiveTests
      ⟨false, .ok 0, .ok "", .err, false⟩).htmlReports = 0 ∧
    (TestAutomation.runComprehensiveTests
      ⟨false, .ok 0, .ok "", .err, false⟩).exitCode = some 1 := by
  decide

/-- C1 amended.  Exactly one JSON and one HTML document are written on
every path on which the body completes or `CI` is set; when an error is
thrown and `CI` is unset, `process.exit(1)` pre-empts the `finally` block
and no document is written. -/
theorem claim_C1_amended_reports (env : TestAutomation.TEnv) :
    ((TestAutomation.runBody env).2 = none ∨ env.ciSet = true →
      (TestAutomation.runComprehensiveTests env).jsonReports = 1 ∧
      (TestAutomation.runComprehensiveTests env).htmlReports = 1 ∧
      (TestAutomation.runComprehensiveTests env).exitCode = none) ∧
    (∀ m, (TestAutomation.runBody env).2 = some m → env.ciSet = false →
      (TestAutomation.runComprehensiveTests env).jsonReports = 0 ∧
      (TestAutomation.runComprehensiveTests env).htmlReports = 0 ∧
      (TestAutomation.runComprehensiveTests env).exitCode = some 1) := by
  rcases hb : TestAutomation.runBody env with ⟨r, o⟩
  rcases o with _ | m0
  · constructor
    · intro _
      rw [TestAutomation.run_eq_of_none env r hb]
      exact ⟨rfl, rfl, rfl⟩
    · intro m hm
      simp at hm
  · constructor
    · intro h
      rcases h with h | h
      · simp at h
      · rw [TestAutomation.run_eq_of_some env r m0 hb, if_neg (by simp [h])]
        exact ⟨rfl, rfl, rfl⟩
    · intro m hm hci
      rw [TestAutomation.run_eq_of_some env r m0 hb, if_pos (by simp [hci])]
      exact ⟨rfl, rfl, rfl⟩

/-- Witness for the amended C1: a failing run in CI mode still writes
both documents. -/
theorem claim_C1_witness :
    (TestAutomation.runComprehensiveTests
      ⟨false, .ok 0, .ok "", .err, true⟩).jsonReports = 1 ∧
    (TestAutomation.runComprehensiveTests
      ⟨false, .ok 0, .ok "", .err, true⟩).htmlReports = 1 ∧
    (TestAutomation.runComprehensiveTests
      ⟨false, .ok 0, .ok "", .err, true⟩).exitCode = none :=
  (claim_C1_amended_reports _).1 (Or.inr rfl)

namespace TestAutomation

/-- Shared characterization: on a non-abort run the final status is
computed from the quality-issue list alone. -/
theorem run_gate_status (env : TEnv) (h : (runBody env).2 = none) :
    ((runComprehensiveTests env).report.status = Status.SUCCESS ↔
      qualityIssues (runComprehensiveTests env).report.coverage
        (runComprehensiveTests env).report.threshold
        (runComprehensiveTests env).report.execution = []) ∧
    ((runComprehensiveTests env).report.status = Status.PARTIAL ↔
      qualityIssues (runComprehensiveTests env).report.coverage
        (runComprehensiveTests env).report.threshold
        (runComprehensiveTests env).report.execution ≠ []) ∧
    (runComprehensiveTests env).report.status ≠ Status.FAILED := by
  rcases runBody_shape env with ⟨r3, hs⟩ | ⟨r, m, hs⟩
  · have hpair : runBody env = ((step4 r3).1, none) := by
      rw [hs]
      rw [← step4_snd r3]
    have hrep := run_report_of_none env _ hpair
    rw [hrep]
    obtain ⟨hst, hcov, hthr, hex⟩ := step4_fields r3
    rw [step4_status r3, hcov, hthr, hex]
    by_cases hiss :
        (qualityIssues r3.coverage r3.threshold r3.execution).isEmpty
    · rw [if_pos hiss]
      have : qualityIssues r3.coverage r3.threshold r3.execution = [] :=
        List.isEmpty_iff.mp hiss
      simp [this]
    · rw [if_neg hiss]
      have : qualityIssues r3.coverage r3.threshold r3.execution ≠ [] := by
        intro hc
        exact hiss (by simp [hc])
      simp [this]
  · rw [hs] at h
    simp at h

/-- On an abort the finalized status is FAILED. -/
theorem run_status_of_some (env : TEnv) (r : TestReport) (m : String)
    (h : runBody env = (r, some m)) :
    (runComprehensiveTests env).report.status = Status.FAILED := by
  rw [run_report_of_some env r m h]

/-- The report's step list is exactly what the body accumulated (the
catch block touches only `status` and `errors`). -/
theorem run_steps_eq (env : TEnv) :
    (runComprehensiveTests env).report.steps = (runBody env).1.steps := by
  rcases hb : runBody env with ⟨r, o⟩
  rcases o with _ | m
  · rw [run_report_of_none env r hb]
  · rw [run_report_of_some env r m hb]

end TestAutomation

/-- C4.  Whenever the quality gate runs (the body did not abort), the
final status is SUCCESS exactly when the violation list is empty and
PARTIAL exactly when it is not; quality-gate violations alone never
produce FAILED. -/
theorem claim_C4_quality_gate_status (env : TestAutomation.TEnv)
    (h : (TestAutomation.runBody env).2 = none) :
    ((TestAutomation.runComprehensiveTests env).report.status =
        Status.SUCCESS ↔
      TestAutomation.qualityIssues
        (TestAutomation.runComprehensiveTests env).report.coverage
        (TestAutomation.runComprehensiveTests env).report.threshold
        (TestAutomation.runComprehensiveTests env).report.execution = []) ∧
    ((TestAutomation.runComprehensiveTests env).report.status =
        Status.PARTIAL ↔
      TestAutomation.qualityIssues
        (TestAutomation.runComprehensiveTests env).report.coverage
        (TestAutomation.runComprehensiveTests env).report.threshold
        (TestAutomation.runComprehensiveTests env).report.execution ≠ []) ∧
    (TestAutomation.runComprehensiveTests env).report.status ≠
      Status.FAILED :=
  TestAutomation.run_gate_status env h

/-- Witness for C4 on a run whose gate flags the zero coverage values. -/
theorem claim_C4_witness :
    ((TestAutomation.runComprehensiveTests
        ⟨true, .ok 1, .ok "  3 passing\n", .err, true⟩).report.status =
        Status.SUCCESS ↔
      TestAutomation.qualityIssues
        (TestAutomation.runComprehensiveTests
          ⟨true, .ok 1, .ok "  3 passing\n", .err, true⟩).report.coverage
        (TestAutomation.runComprehensiveTests
          ⟨true, .ok 1, .ok "  3 passing\n", .err, true⟩).report.threshold
        (TestAutomation.runComprehensiveTests
          ⟨true, .ok 1, .ok "  3 passing\n", .err, true⟩).report.execution =
        []) ∧
    ((TestAutomation.runComprehensiveTests
        ⟨true, .ok 1, .ok "  3 passing\n", .err, true⟩).report.status =
        Status.PARTIAL ↔
      TestAutomation.qualityIssues
        (TestAutomation.runComprehensiveTests
          ⟨true, .ok 1, .ok "  3 passing\n", .err, true⟩).report.coverage
        (TestAutomation.runComprehensiveTests
          ⟨true, .ok 1, .ok "  3 passing\n", .err, true⟩).report.threshold
        (TestAutomation.runComprehensiveTests
          ⟨true, .ok 1, .ok "  3 passing\n", .err, true⟩).report.execution ≠
        []) ∧
    (TestAutomation.runComprehensiveTests
      ⟨true, .ok 1, .ok "  3 passing\n", .err, true⟩).report.status ≠
      Status.FAILED :=
  claim_C4_quality_gate_status _ (by decide)

/-- C2 as stated is false: a non-zero exit with code 2 and a parsed
total of 5 tests is *not* recorded as PARTIAL — only exit code exactly 1
is tolerated — so the pipeline aborts with FAILED and no test-execution
step in the report. -/
theorem claim_C2_counterexample :
    (TestAutomation.runComprehensiveTests ⟨true, .ok 2,
        .error ⟨some 2, some "  5 passing\n", "Command failed"⟩,
        .summary ⟨90, 90, 90, 90⟩, true⟩).report.execution.totalTests = 5 ∧
    (TestAutomation.runComprehensiveTests ⟨true, .ok 2,
        .error ⟨some 2, some "  5 passing\n", "Command failed"⟩,
        .summary ⟨90, 90, 90, 90⟩, true⟩).report.status = Status.FAILED ∧
    (TestAutomation.runComprehensiveTests ⟨true, .ok 2,
        .error ⟨some 2, some "  5 passing\n", "Command failed"⟩,
        .summary ⟨90, 90, 90, 90⟩, true⟩).report.steps =
      [⟨"Environment validation", Status.SUCCESS⟩] := by
  decide

/-- C2 amended.  When the test-execution subprocess throws, the step is
recorded as PARTIAL and execution continues precisely when the exit
status equals 1 *and* the parsed total test count is nonzero; in every
other case (status ≠ 1, missing stdout, or zero parsed total) the error
is rethrown and the pipeline finishes with status FAILED. -/
theorem claim_C2_amended_tolerance (est : Option Int) (estd : Option String)
    (emsg : String) (n : Nat) (cv : TestAutomation.CovOutcome) (ci : Bool) :
    ((TestAutomation.TStep.mk "Test execution" Status.PARTIAL ∈
        (TestAutomation.runComprehensiveTests
          ⟨true, .ok n, .error ⟨est, estd, emsg⟩, cv, ci⟩).report.steps ∧
      (TestAutomation.runBody
          ⟨true, .ok n, .error ⟨est, estd, emsg⟩, cv, ci⟩).2 = none) ↔
      (est = some 1 ∧
        (TestAutomation.parsedExec ⟨est, estd, emsg⟩).totalTests > 0)) ∧
    (¬(est = some 1 ∧
        (TestAutomation.parsedExec ⟨est, estd, emsg⟩).totalTests > 0) →
      (TestAutomation.runComprehensiveTests
        ⟨true, .ok n, .error ⟨est, estd, emsg⟩, cv, ci⟩).report.status =
        Status.FAILED) := by
  rcases estd with _ | s
  · have h2 : TestAutomation.step2
        ⟨true, .ok n, .error ⟨est, none, emsg⟩, cv, ci⟩
        { status := Status.UNKNOWN, execution := ⟨0, 0, 0, 0⟩,
          coverage := ⟨0, 0, 0, 0⟩, threshold := ⟨80, 80, 80, 80⟩,
          steps := [⟨"Environment validation", Status.SUCCESS⟩],
          errors := [], quality := none, testFiles := some n } =
        ({ status := Status.UNKNOWN, execution := ⟨0, 0, 0, 0⟩,
           coverage := ⟨0, 0, 0, 0⟩, threshold := ⟨80, 80, 80, 80⟩,
           steps := [⟨"Environment validation", Status.SUCCESS⟩],
           errors := [], quality := none, testFiles := some n },
         some emsg) := by
      unfold TestAutomation.step2
      dsimp only
      rw [if_neg (by simp)]
    have hb : TestAutomation.runBody
        ⟨true, .ok n, .error ⟨est, none, emsg⟩, cv, ci⟩ =
        ({ status := Status.UNKNOWN, execution := ⟨0, 0, 0, 0⟩,
           coverage := ⟨0, 0, 0, 0⟩, threshold := ⟨80, 80, 80, 80⟩,
           steps := [⟨"Environment validation", Status.SUCCESS⟩],
           errors := [], quality := none, testFiles := some n },
         some emsg) := by
      unfold TestAutomation.runBody
      rw [show TestAutomation.step1
          ⟨true, .ok n, .error ⟨est, none, emsg⟩, cv, ci⟩
          TestAutomation.initReport =
          ({ status := Status.UNKNOWN, execution := ⟨0, 0, 0, 0⟩,
             coverage := ⟨0, 0, 0, 0⟩, threshold := ⟨80, 80, 80, 80⟩,
             steps := [⟨"Environment validation", Status.SUCCESS⟩],
             errors := [], quality := none, testFiles := some n },
           none) from rfl]
      simp only [TestAutomation.andThen]
      rw [h2]
    constructor
    · apply iff_of_false
      · rintro ⟨_, hnone⟩
        rw [hb] at hnone
        simp at hnone
      · simp [TestAutomation.parsedExec]
    · intro _
      exact TestAutomation.run_status_of_some _ _ emsg hb
  · by_cases hcond : est = some 1 ∧
        (TestAutomation.parseTestResults s ⟨0, 0, 0, 0⟩).totalTests > 0
    · have h2 : TestAutomation.step2
          ⟨true, .ok n, .error ⟨est, some s, emsg⟩, cv, ci⟩
          { status := Status.UNKNOWN, execution := ⟨0, 0, 0, 0⟩,
            coverage := ⟨0, 0, 0, 0⟩, threshold := ⟨80, 80, 80, 80⟩,
            steps := [⟨"Environment validation", Status.SUCCESS⟩],
            errors := [], quality := none, testFiles := some n } =
          ({ status := Status.UNKNOWN,
             execution := TestAutomation.parseTestResults s ⟨0, 0, 0, 0⟩,
             coverage := ⟨0, 0, 0, 0⟩, threshold := ⟨80, 80, 80, 80⟩,
             steps := [⟨"Environment validation", Status.SUCCESS⟩,
                       ⟨"Test execution", Status.PARTIAL⟩],
             errors := [], quality := none, testFiles := some n },
           none) := by
        unfold TestAutomation.step2
        dsimp only
        rw [if_pos hcond]
        rfl
      have hpair3 : TestAutomation.step3
          ⟨true, .ok n, .error ⟨est, some s, emsg⟩, cv, ci⟩
          { status := Status.UNKNOWN,
            execution := TestAutomation.parseTestResults s ⟨0, 0, 0, 0⟩,
            coverage := ⟨0, 0, 0, 0⟩, threshold := ⟨80, 80, 80, 80⟩,
            steps := [⟨"Environment validation", Status.SUCCESS⟩,
                      ⟨"Test execution", Status.PARTIAL⟩],
            errors := [], quality := none, testFiles := some n } =
          ((TestAutomation.step3
            ⟨true, .ok n, .error ⟨est, some s, emsg⟩, cv, ci⟩
            { status := Status.UNKNOWN,
              execution := TestAutomation.parseTestResults s ⟨0, 0, 0, 0⟩,
              coverage := ⟨0, 0, 0, 0⟩, threshold := ⟨80, 80, 80, 80⟩,
              steps := [⟨"Environment validation", Status.SUCCESS⟩,
                        ⟨"Test execution", Status.PARTIAL⟩],
              errors := [], quality := none, testFiles := some n }).1,
           none) := by
        rw [← TestAutomation.step3_snd]
      have hb : TestAutomation.runBody
          ⟨true, .ok n, .error ⟨est, some s, emsg⟩, cv, ci⟩ =
          ((TestAutomation.step4 (TestAutomation.step3
            ⟨true, .ok n, .error ⟨est, some s, emsg⟩, cv, ci⟩
            { status := Status.UNKNOWN,
              execution := TestAutomation.parseTestResults s ⟨0, 0, 0, 0⟩,
              coverage := ⟨0, 0, 0, 0⟩, threshold := ⟨80, 80, 80, 80⟩,
              steps := [⟨"Environment validation", Status.SUCCESS⟩,
                        ⟨"Test execution", Status.PARTIAL⟩],
              errors := [], quality := none, testFiles := some n }).1).1,
           none) := by
        unfold TestAutomation.runBody
        rw [show TestAutomation.step1
            ⟨true, .ok n, .error ⟨est, some s, emsg⟩, cv, ci⟩
            TestAutomation.initReport =
            ({ status := Status.UNKNOWN, execution := ⟨0, 0, 0, 0⟩,
               coverage := ⟨0, 0, 0, 0⟩, threshold := ⟨80, 80, 80, 80⟩,
               steps := [⟨"Environment validation", Status.SUCCESS⟩],
               errors := [], quality := none, testFiles := some n },
             none) from rfl]
        simp only [TestAutomation.andThen]
        rw [h2]
        simp only [TestAutomation.andThen]
        rw [hpair3]
        simp only [TestAutomation.andThen]
        rw [← TestAutomation.step4_snd]
      constructor
      · apply iff_of_true
        · constructor
          · rw [TestAutomation.run_steps_eq, hb]
            dsimp only
            rw [(TestAutomation.step4_fields _).1]
            apply TestAutomation.step3_steps_mem
            simp
          · rw [hb]
        · simpa [TestAutomation.parsedExec] using hcond
      · intro hnc
        exact absurd (by simpa [TestAutomation.parsedExec] using hcond) hnc
    · have h2 : TestAutomation.step2
          ⟨true, .ok n, .error ⟨est, some s, emsg⟩, cv, ci⟩
          { status := Status.UNKNOWN, execution := ⟨0, 0, 0, 0⟩,
            coverage := ⟨0, 0, 0, 0⟩, threshold := ⟨80, 80, 80, 80⟩,
            steps := [⟨"Environment validation", Status.SUCCESS⟩],
            errors := [], quality := none, testFiles := some n } =
          ({ status := Status.UNKNOWN,
             execution := TestAutomation.parseTestResults s ⟨0, 0, 0, 0⟩,
             coverage := ⟨0, 0, 0, 0⟩, threshold := ⟨80, 80, 80, 80⟩,
             steps := [⟨"Environment validation", Status.SUCCESS⟩],
             errors := [], quality := none, testFiles := some n },
           some emsg) := by
        unfold TestAutomation.step2
        dsimp only
        rw [if_neg hcond]
      have hb : TestAutomation.runBody
          ⟨true, .ok n, .error ⟨est, some s, emsg⟩, cv, ci⟩ =
          ({ status := Status.UNKNOWN,
             execution := TestAutomation.parseTestResults s ⟨0, 0, 0, 0⟩,
             coverage := ⟨0, 0, 0, 0⟩, threshold := ⟨80, 80, 80, 80⟩,
             steps := [⟨"Environment validation", Status.SUCCESS⟩],
             errors := [], quality := none, testFiles := some n },
           some emsg) := by
        unfold TestAutomation.runBody
        rw [show TestAutomation.step1
            ⟨true, .ok n, .error ⟨est, some s, emsg⟩, cv, ci⟩
            TestAutomation.initReport =
            ({ status := Status.UNKNOWN, execution := ⟨0, 0, 0, 0⟩,
               coverage := ⟨0, 0, 0, 0⟩, threshold := ⟨80, 80, 80, 80⟩,
               steps := [⟨"Environment validation", Status.SUCCESS⟩],
               errors := [], quality := none, testFiles := some n },
             none) from rfl]
        simp only [TestAutomation.andThen]
        rw [h2]
      constructor
      · apply iff_of_false
        · rintro ⟨_, hnone⟩
          rw [hb] at hnone
          simp at hnone
        · simpa [TestAutomation.parsedExec] using hcond
      · intro _
        exact TestAutomation.run_status_of_some _ _ emsg hb

/-- Witness for the amended C2: exit status 2 with five parsed tests is
rethrown, and the pipeline finishes FAILED. -/
theorem claim_C2_witness :
    (TestAutomation.runComprehensiveTests ⟨true, .ok 2,
      .error ⟨some 2, some "  5 passing\n", "Command failed"⟩,
      .summary ⟨90, 90, 90, 90⟩, true⟩).report.status = Status.FAILED :=
  (claim_C2_amended_tolerance (some 2) (some "  5 passing\n")
    "Command failed" 2 (.summary ⟨90, 90, 90, 90⟩) true).2 (by decide)

/-- C3 as stated is false: a run whose test-execution step is PARTIAL
(9 passing, 1 failing, exit status 1) but whose metrics clear every
threshold (coverage 90 everywhere, pass rate exactly 90%) finishes with
status SUCCESS even though a PARTIAL step is present — the final status
is computed from the quality issues alone, not from step statuses. -/
theorem claim_C3_counterexample :
    (TestAutomation.runComprehensiveTests ⟨true, .ok 2,
        .error ⟨some 1, some "  9 passing\n  1 failing\n", "cmd"⟩,
        .summary ⟨90, 90, 90, 90⟩, true⟩).report.status = Status.SUCCESS ∧
    TestAutomation.TStep.mk "Test execution" Status.PARTIAL ∈
      (TestAutomation.runComprehensiveTests ⟨true, .ok 2,
        .error ⟨some 1, some "  9 passing\n  1 failing\n", "cmd"⟩,
        .summary ⟨90, 90, 90, 90⟩, true⟩).report.steps := by
  have hb : TestAutomation.runBody ⟨true, .ok 2,
      .error ⟨some 1, some "  9 passing\n  1 failing\n", "cmd"⟩,
      .summary ⟨90, 90, 90, 90⟩, true⟩ =
      TestAutomation.step4
        { status := .UNKNOWN, execution := ⟨10, 9, 1, 0⟩,
          coverage := ⟨90, 90, 90, 90⟩, threshold := ⟨80, 80, 80, 80⟩,
          steps := [⟨"Environment validation", .SUCCESS⟩,
                    ⟨"Test execution", .PARTIAL⟩,
                    ⟨"Coverage report generation", .SUCCESS⟩],
          errors := [], quality := none, testFiles := some 2 } := rfl
  have hpair : TestAutomation.runBody ⟨true, .ok 2,
      .error ⟨some 1, some "  9 passing\n  1 failing\n", "cmd"⟩,
      .summary ⟨90, 90, 90, 90⟩, true⟩ =
      ((TestAutomation.step4
        { status := .UNKNOWN, execution := ⟨10, 9, 1, 0⟩,
          coverage := ⟨90, 90, 90, 90⟩, threshold := ⟨80, 80, 80, 80⟩,
          steps := [⟨"Environment validation", .SUCCESS⟩,
                    ⟨"Test execution", .PARTIAL⟩,
                    ⟨"Coverage report generation", .SUCCESS⟩],
          errors := [], quality := none, testFiles := some 2 }).1, none) := by
    rw [hb, ← TestAutomation.step4_snd]
  have hrep := TestAutomation.run_report_of_none _ _ hpair
  have hiss : TestAutomation.qualityIssues ⟨90, 90, 90, 90⟩
      ⟨80, 80, 80, 80⟩ ⟨10, 9, 1, 0⟩ = [] := by
    norm_num [TestAutomation.qualityIssues, TestAutomation.coverageIssues,
      TestAutomation.passRate]
  constructor
  · rw [hrep, TestAutomation.step4_status]
    dsimp only
    rw [hiss]
    rfl
  · rw [hrep, (TestAutomation.step4_fields _).1]
    simp

/-- C3 amended.  The final status is FAILED exactly when the body
aborted; on a completed body it is SUCCESS exactly when the quality-gate
violation list is empty and PARTIAL otherwise.  Step statuses never enter
this computation, and in particular no recorded step ever carries status
FAILED (so "FAILED whenever any step is FAILED" holds only vacuously). -/
theorem claim_C3_amended_status (env : TestAutomation.TEnv) :
    ((TestAutomation.runComprehensiveTests env).report.status =
        Status.FAILED ↔ (TestAutomation.runBody env).2 ≠ none) ∧
    ((TestAutomation.runBody env).2 = none →
      ((TestAutomation.runComprehensiveTests env).report.status =
          Status.SUCCESS ↔
        TestAutomation.qualityIssues
          (TestAutomation.runComprehensiveTests env).report.coverage
          (TestAutomation.runComprehensiveTests env).report.threshold
          (TestAutomation.runComprehensiveTests env).report.execution =
          []) ∧
      ((TestAutomation.runComprehensiveTests env).report.status =
          Status.PARTIAL ↔
        TestAutomation.qualityIssues
          (TestAutomation.runComprehensiveTests env).report.coverage
          (TestAutomation.runComprehensiveTests env).report.threshold
          (TestAutomation.runComprehensiveTests env).report.execution ≠
          [])) ∧
    (∀ s ∈ (TestAutomation.runComprehensiveTests env).report.steps,
      s.status ≠ Status.FAILED) := by
  refine ⟨?_, fun h => ⟨(TestAutomation.run_gate_status env h).1,
    (TestAutomation.run_gate_status env h).2.1⟩, ?_⟩
  · rcases hb : TestAutomation.runBody env with ⟨r, o⟩
    rcases o with _ | m
    · have hnone : (TestAutomation.runBody env).2 = none := by rw [hb]
      apply iff_of_false (TestAutomation.run_gate_status env hnone).2.2
      simp
    · apply iff_of_true (TestAutomation.run_status_of_some env r m hb)
      simp
  · rw [TestAutomation.run_steps_eq env]
    exact TestAutomation.runBody_steps_P env

/-- Witness for the amended C3 on a clean run whose default zero coverage
violates the gate: status PARTIAL, not SUCCESS. -/
theorem claim_C3_witness :
    ((TestAutomation.runComprehensiveTests
        ⟨true, .ok 1, .ok "  3 passing\n", .err, true⟩).report.status =
        Status.SUCCESS ↔
      TestAutomation.qualityIssues
        (TestAutomation.runComprehensiveTests
          ⟨true, .ok 1, .ok "  3 passing\n", .err, true⟩).report.coverage
        (TestAutomation.runComprehensiveTests
          ⟨true, .ok 1, .ok "  3 passing\n", .err, true⟩).report.threshold
        (TestAutomation.runComprehensiveTests
          ⟨true, .ok 1, .ok "  3 passing\n", .err, true⟩).report.execution =
        []) :=
  ((claim_C3_amended_status _).2.1 (by decide)).1

/-- C8.  If the fatal dependency-installation step fails (package read or
`npm ci` throws), no later step executes: the finalized report's step
list holds only the directory-creation entries and Environment
validation — no entry for Security audit, Code quality check, or Build
artifacts creation, and no skipped markers — and the report is FAILED. -/
theorem claim_C8_abort_on_fatal (env : EnhancedBuild.BEnv)
    (v : String × String) (hec : env.envCheck = .ok v)
    (hin : (∃ m, env.pkgRead = .error m) ∨
      (∃ d, env.pkgRead = .ok d ∧ ∃ m, env.npmCi = .error m)) :
    (∀ s ∈ (EnhancedBuild.generateBuildReport env).1.steps,
      s.step = "Create build-reports directory" ∨
      s.step = "Create dist directory" ∨
      s.step = "Environment validation") ∧
    (EnhancedBuild.generateBuildReport env).1.status = Status.FAILED := by
  obtain ⟨rde, dde, ec, pr, nc, au, li, ap, ae⟩ := env
  simp only at hec
  subst hec
  rcases hin with ⟨m, hm⟩ | ⟨d, hd, m, hm⟩
  · simp only at hm
    subst hm
    cases rde <;> cases dde <;>
      (constructor
       · simp [EnhancedBuild.generateBuildReport, EnhancedBuild.buildBody,
           EnhancedBuild.pushStep, EnhancedBuild.pushErr,
           EnhancedBuild.initBReport]
       · rfl)
  · simp only at hd hm
    subst hd
    subst hm
    cases rde <;> cases dde <;>
      (constructor
       · simp [EnhancedBuild.generateBuildReport, EnhancedBuild.buildBody,
           EnhancedBuild.pushStep, EnhancedBuild.pushErr,
           EnhancedBuild.initBReport]
       · rfl)

/-- Witness for C8: `npm ci` fails after a clean environment check. -/
theorem claim_C8_witness :
    (∀ s ∈ (EnhancedBuild.generateBuildReport
        ⟨true, true, .ok ("v18.0.0", "9.0.0"), .ok ⟨3, 5, 8⟩,
         .error "npm ci failed", some 0, true, [], none⟩).1.steps,
      s.step = "Create build-reports directory" ∨
      s.step = "Create dist directory" ∨
      s.step = "Environment validation") ∧
    (EnhancedBuild.generateBuildReport
      ⟨true, true, .ok ("v18.0.0", "9.0.0"), .ok ⟨3, 5, 8⟩,
       .error "npm ci failed", some 0, true, [], none⟩).1.status =
      Status.FAILED :=
  claim_C8_abort_on_fatal _ ("v18.0.0", "9.0.0") rfl
    (Or.inr ⟨⟨3, 5, 8⟩, rfl, "npm ci failed", rfl⟩)

/-- C9.  Both command-execution helpers return a result value for every
subprocess outcome: a non-zero exit (or spawn failure / timeout) surfaces
as `{success: false, error}` resp. a resolved `{error: true, message}`,
never as an exception escaping the helper. -/
theorem claim_C9_no_raise_nonzero_exit (message output : String) :
    CommandRunner.executeCommand (.err message) =
      ⟨false, none, some message⟩ ∧
    CommandRunner.executeCommandP (.err message) =
      ⟨true, some message, none⟩ ∧
    CommandRunner.executeCommand (.ok output) = ⟨true, some output, none⟩ ∧
    CommandRunner.executeCommandP (.ok output) = ⟨false, none, some output⟩ :=
  ⟨rfl, rfl, rfl, rfl⟩

/-- C10.  After every call to the test-output parser, `totalTests` equals
`passed + failed`, and `skipped` is never folded into the total (the
parser does not even touch it). -/
theorem claim_C10_total_eq_passed_add_failed (output : String)
    (e : TestAutomation.Execution) :
    (TestAutomation.parseTestResults output e).totalTests =
      (TestAutomation.parseTestResults output e).passed +
        (TestAutomation.parseTestResults output e).failed ∧
    (TestAutomation.parseTestResults output e).skipped = e.skipped := by
  constructor
  · rfl
  · unfold TestAutomation.parseTestResults
    exact TestAutomation.foldl_parseLine_skipped _ _
